import Mathlib

/-!
Verification development for the k6 load-test utility library.

The repository's library code (token manager, correlation manager, CSV data
manager, response validators) is straight-line JavaScript executed by the k6
runtime.  Each function below is a shallow embedding of the corresponding
JavaScript function, translated statement by statement:

* JavaScript JSON values are modelled by `JValue`; the JavaScript value
  `undefined` is modelled as `none` in `Option JValue` and `null` as
  `some .jnull`.
* Mutable module-level state (the correlation store, the token cache, the
  refresh lock, the metric counters) is passed and returned explicitly.
* `console.log` / `console.warn` / `console.error` calls are collected in an
  output list of `LogEntry` values, in program order.
* The HTTP exchange performed by the token manager is external to the
  library: the embedded functions receive the `Response` that the k6 HTTP
  client would return, and `Response.json` carries the result of `r.json()`
  (`none` when the body is not JSON-decodable, in which case the JavaScript
  call throws and is caught by the surrounding try/catch).
* `exec.test.abort(reason)` stops the test run; it is modelled by the
  `DataOutcome.aborted` constructor, short-circuiting the function.
* Numeric timestamps are milliseconds since epoch, modelled as `Nat`; the
  JavaScript computation `expirySeconds * 1000 * 0.8` is exact on the
  integers involved and equals `expirySeconds * 800`.
-/

namespace K6

/-- JavaScript JSON values (the possible results of `response.json()`). -/
inductive JValue where
  | jnull
  | jbool (b : Bool)
  | jnum (n : Int)
  | jstr (s : String)
  | jarr (elems : List JValue)
  | jobj (fields : List (String × JValue))

/-- A console log line together with its severity
(`console.log` / `console.warn` / `console.error`). -/
inductive LogEntry where
  | info (msg : String)
  | warn (msg : String)
  | error (msg : String)
deriving DecidableEq

/-- `value === null || value === undefined` on a JavaScript value
(`none` models `undefined`). -/
def isNullOrUndef : Option JValue → Bool
  | none => true
  | some .jnull => true
  | some _ => false

/-- JavaScript truthiness of a value (`if (value)`), restricted to the
modelled value domain (floats and NaN are not modelled; numbers are `Int`). -/
def jsTruthy : Option JValue → Bool
  | none => false
  | some .jnull => false
  | some (.jbool b) => b
  | some (.jnum n) => n != 0
  | some (.jstr s) => s != ""
  | some (.jarr _) => true
  | some (.jobj _) => true

/-- JavaScript property access `value[key]` on a non-null, non-undefined
value: object field lookup, array index / `length` access via a canonical
numeric string, string index / `length` access; every other access yields
`undefined` (`none`). -/
def jsGetProp : JValue → String → Option JValue
  | .jobj fields, key => (fields.find? (fun p => p.1 == key)).map (·.2)
  | .jarr xs, key =>
      if key == "length" then some (.jnum xs.length)
      else
        match key.toNat? with
        | some i => if toString i == key then xs[i]? else none
        | none => none
  | .jstr s, key =>
      if key == "length" then some (.jnum s.length)
      else
        match key.toNat? with
        | some i =>
            if toString i == key then (s.data[i]?).map (fun c => .jstr (String.mk [c]))
            else none
        | none => none
  | _, _ => none

/-- `Array.isArray(value) ? 'array' : typeof value` as used by the schema
type check in `validateResponse`. -/
def jsTypeOf : Option JValue → String
  | none => "undefined"
  | some .jnull => "object"
  | some (.jbool _) => "boolean"
  | some (.jnum _) => "number"
  | some (.jstr _) => "string"
  | some (.jarr _) => "array"
  | some (.jobj _) => "object"

mutual

/-- JavaScript string coercion `String(value)` of a JSON value, as used when
a value is interpolated into a template literal or passed to
`String.prototype.replace`. -/
def jsDisplayVal : JValue → String
  | .jnull => "null"
  | .jbool b => cond b "true" "false"
  | .jnum n => toString n
  | .jstr s => s
  | .jarr xs => String.intercalate "," (jsDisplayList xs)
  | .jobj _ => "[object Object]"

/-- Element displays for `Array.prototype.join`, where a `null` element
renders as the empty string. -/
def jsDisplayList : List JValue → List String
  | [] => []
  | .jnull :: rest => "" :: jsDisplayList rest
  | v :: rest => jsDisplayVal v :: jsDisplayList rest

end

/-- JavaScript string coercion of a possibly-undefined value. -/
def jsDisplay : Option JValue → String
  | none => "undefined"
  | some v => jsDisplayVal v

/-- Whether `pat` occurs as a contiguous sublist of the second argument. -/
def listIsInfixOf (pat : List Char) : List Char → Bool
  | [] => pat.isEmpty
  | c :: cs => pat.isPrefixOf (c :: cs) || listIsInfixOf pat cs

/-- `s.includes(sub)` on JavaScript strings. -/
def strIncludes (s sub : String) : Bool := listIsInfixOf sub.data s.data

/-- JavaScript object assignment `m[k] = v` on an object modelled as an
insertion-ordered association list: overwrite in place when the key exists,
append otherwise. -/
def objUpsert {α : Type} (m : List (String × α)) (k : String) (v : α) :
    List (String × α) :=
  if m.any (fun p => p.1 == k) then
    m.map (fun p => if p.1 == k then (p.1, v) else p)
  else m ++ [(k, v)]

/-- An HTTP response as consumed by this library: `status`, `body`,
`timings.duration` (milliseconds), and the result of `r.json()` (`none`
when parsing throws). -/
structure Response where
  status : Int
  body : String
  timingsDuration : Nat
  json : Option JValue

/-! ## Correlation manager (`correlationManager.js`) -/

/-- One entry of the VU-level correlation store:
`correlationStore[key] = { value, extractedAt, source }`. -/
structure CorrelationEntry where
  value : Option JValue
  extractedAt : Nat
  source : String

/-- The module-level `correlationStore` object, as an insertion-ordered
association list. -/
abbrev CorrelationStore := List (String × CorrelationEntry)

/-- Assignment `correlationStore[key] = entry`. -/
def storeSet (store : CorrelationStore) (key : String) (entry : CorrelationEntry) :
    CorrelationStore :=
  if store.any (fun p => p.1 == key) then
    store.map (fun p => if p.1 == key then (p.1, entry) else p)
  else store ++ [(key, entry)]

/-- Lookup `correlationStore[key]` (`none` when the key is absent, i.e. the
JavaScript lookup yields `undefined`). -/
def storeGet (store : CorrelationStore) (key : String) : Option CorrelationEntry :=
  (store.find? (fun p => p.1 == key)).map (·.2)

/-- `s.split(sep)` for a single-character separator, as JavaScript's
`String.prototype.split` computes it (structural recursion, so concrete
instances reduce definitionally). -/
def splitChar (sep : Char) : List Char → List (List Char)
  | [] => [[]]
  | c :: cs =>
      match splitChar sep cs with
      | [] => [[]]
      | h :: t => if c = sep then [] :: h :: t else (c :: h) :: t

/-- `s.split(sep)` on strings. -/
def jsSplit (s : String) (sep : Char) : List String :=
  (splitChar sep s.data).map String.mk

/-- The regex character class `\w`. -/
def isWordChar (c : Char) : Bool := c.isAlphanum || c == '_'

/-- One attempted match of the regex `(\w+)\[(\d+)\]` anchored at the head of
the list.  Because `[` is not a word character and `]` is not a digit, the
greedy quantifiers never backtrack successfully, so the regex matches here
exactly when a maximal nonempty word-run is followed by `[`, a maximal
nonempty digit-run and `]`. -/
def segMatchAt (l : List Char) : Option (String × Nat) :=
  let nameRun := l.takeWhile isWordChar
  if nameRun.isEmpty then none
  else
    match l.drop nameRun.length with
    | '[' :: rest =>
        let digits := rest.takeWhile Char.isDigit
        if digits.isEmpty then none
        else
          match rest.drop digits.length with
          | ']' :: _ => some (String.mk nameRun, ((String.mk digits).toNat?).getD 0)
          | _ => none
    | _ => none

/-- `part.match(/(\w+)\[(\d+)\]/)`: the leftmost match of the array-index
pattern inside a path segment, yielding the captured name and index. -/
def segMatch : List Char → Option (String × Nat)
  | [] => none
  | c :: cs =>
      match segMatchAt (c :: cs) with
      | some r => some r
      | none => segMatch cs

/-- The `for (const part of pathParts)` loop of `extractJsonValue`: walk the
dot-separated segments, returning `defaultValue` as soon as the current value
is null/undefined, handling `name[index]` segments via `segMatch`, and at the
end returning the value unless it is `undefined`. -/
def extractLoop (parts : List String) (v : Option JValue)
    (defaultValue : Option JValue) : Option JValue :=
  match parts with
  | [] =>
      match v with
      | none => defaultValue
      | some val => some val
  | part :: rest =>
      match v with
      | none => defaultValue
      | some .jnull => defaultValue
      | some val =>
          match segMatch part.data with
          | some (arrayName, index) =>
              match jsGetProp val arrayName with
              | some (.jarr xs) =>
                  match xs[index]? with
                  | some elem => extractLoop rest (some elem) defaultValue
                  | none => defaultValue
              | _ => defaultValue
          | none => extractLoop rest (jsGetProp val part) defaultValue

/-- `extractJsonValue(response, path, defaultValue)` from
`correlationManager.js`.  The only statement inside the `try` block that can
throw is `response.json()`; the catch branch logs and returns the default.
A k6 response always carries a `json` method, so the `!response.json` guard
never fires for the responses modelled here. -/
def extractJsonValue (response : Response) (path : String)
    (defaultValue : Option JValue) : Option JValue × List LogEntry :=
  match response.json with
  | none =>
      (defaultValue,
       [.error ("[CORRELATION] Error extracting \x27" ++ path ++ "\x27: JSON parse error")])
  | some jsonData =>
      if path == "" then (some jsonData, [])
      else (extractLoop (jsSplit path '.') (some jsonData) defaultValue, [])

/-- Options object of `extractAndStore`. -/
structure ExtractOptions where
  required : Bool := true
  defaultValue : Option JValue := some .jnull
  logExtraction : Bool := true

/-- `extractAndStore(response, jsonPath, correlationKey, options)`:
resolve the path, log a failure when the value is null/undefined (an error
block with status and truncated body when `required`, a warning otherwise),
return `null` early when `required`, and otherwise store the value under the
key and return it.  Returns (result, new store, console output). -/
def extractAndStore (response : Response) (jsonPath correlationKey : String)
    (opts : ExtractOptions) (store : CorrelationStore) (now : Nat) :
    Option JValue × CorrelationStore × List LogEntry :=
  let ext := extractJsonValue response jsonPath opts.defaultValue
  let value := ext.1
  let errorMsg := "[CORRELATION] Failed to extract \x27" ++ correlationKey ++
      "\x27 from path \x27" ++ jsonPath ++ "\x27"
  let failLogs :=
    if isNullOrUndef value then
      if opts.required then
        [LogEntry.error errorMsg,
         LogEntry.error ("[CORRELATION] Response status: " ++ toString response.status),
         LogEntry.error ("[CORRELATION] Response body: " ++ response.body.take 200)]
      else if opts.logExtraction then [LogEntry.warn (errorMsg ++ " (optional)")]
      else []
    else []
  if isNullOrUndef value && opts.required then
    (some .jnull, store, ext.2 ++ failLogs)
  else
    let store' := storeSet store correlationKey ⟨value, now, jsonPath⟩
    let storedLogs :=
      if opts.logExtraction then
        [LogEntry.info ("[CORRELATION] ✓ Stored \x27" ++ correlationKey ++ "\x27 = " ++
          jsDisplay value)]
      else []
    (value, store', ext.2 ++ failLogs ++ storedLogs)

/-- `getCorrelatedValue(correlationKey, defaultValue)`: the stored value, or
the default when no entry exists under the key. -/
def getCorrelatedValue (store : CorrelationStore) (correlationKey : String)
    (defaultValue : Option JValue) : Option JValue :=
  match storeGet store correlationKey with
  | none => defaultValue
  | some stored => stored.value

/-- `hasCorrelation(correlationKey)`: the key is present and its stored value
is neither null nor undefined. -/
def hasCorrelation (store : CorrelationStore) (correlationKey : String) : Bool :=
  match storeGet store correlationKey with
  | none => false
  | some stored => !(isNullOrUndef stored.value)

/-- `storeCorrelation(key, value)`. -/
def storeCorrelation (store : CorrelationStore) (key : String)
    (value : Option JValue) (now : Nat) : CorrelationStore :=
  storeSet store key ⟨value, now, "manual"⟩

/-- `clearCorrelations()`: `correlationStore = {}`. -/
def clearCorrelations (_store : CorrelationStore) : CorrelationStore := []

/-- Fuel-indexed scan of the global regex `/\{([^}]+)\}/g` over the
template: the contents of every nonempty brace-delimited run, left to right
and non-overlapping.  The scan consumes at least one character per step, so
a fuel equal to the input length (as supplied by `scanPlaceholders`) never
runs out; the fuel only makes the recursion structural. -/
def scanPlaceholdersAux : Nat → List Char → List String
  | 0, _ => []
  | _, [] => []
  | fuel + 1, c :: cs =>
      if c = '{' then
        let nameRun := cs.takeWhile (fun d => d ≠ '}')
        if nameRun.isEmpty = false ∧ (cs.drop nameRun.length).head? = some '}' then
          String.mk nameRun :: scanPlaceholdersAux fuel (cs.drop (nameRun.length + 1))
        else scanPlaceholdersAux fuel cs
      else scanPlaceholdersAux fuel cs

/-- `urlTemplate.match(/\{([^}]+)\}/g)`, as the list of captured placeholder
names (empty when the JavaScript call returns null). -/
def scanPlaceholders (l : List Char) : List String :=
  scanPlaceholdersAux l.length l

/-- `url.replace(pat, rep)` with a string pattern: JavaScript replaces only
the first occurrence. -/
def replaceFirstList (pat rep : List Char) : List Char → List Char
  | [] => []
  | c :: cs =>
      if pat.isPrefixOf (c :: cs) then rep ++ (c :: cs).drop pat.length
      else c :: replaceFirstList pat rep cs

/-- `String.prototype.replace` with a plain string pattern (first occurrence
only; `$`-substitution patterns in the replacement are not modelled). -/
def replaceFirst (s pat rep : String) : String :=
  String.mk (replaceFirstList pat.data rep.data s.data)

/-- The substitution loop of `buildCorrelatedUrl`: for each
(placeholder, correlationKey) entry in order, look the key up in the store;
on a null/undefined value log the missing-correlation error and return
`null`, otherwise replace the first occurrence of `{placeholder}` with the
string coercion of the value. -/
def buildUrlLoop (store : CorrelationStore) :
    List (String × String) → String → Option String × List LogEntry
  | [], url => (some url, [])
  | (placeholder, correlationKey) :: rest, url =>
      let value := getCorrelatedValue store correlationKey (some .jnull)
      if isNullOrUndef value then
        (none,
         [.error ("[CORRELATION] Cannot build URL: missing correlation \x27" ++
           correlationKey ++ "\x27 for placeholder \x27\x7b" ++ placeholder ++ "\x7d\x27")])
      else
        buildUrlLoop store rest
          (replaceFirst url ("\x7b" ++ placeholder ++ "\x7d") (jsDisplay value))

/-- `buildCorrelatedUrl(urlTemplate, correlationMapping)`: when no mapping is
given, auto-derive the identity mapping from the placeholders found in the
template (duplicates collapse through object assignment); when the template
has no placeholders either, return it unchanged; otherwise run the
substitution loop. -/
def buildCorrelatedUrl (store : CorrelationStore) (urlTemplate : String)
    (correlationMapping : Option (List (String × String))) :
    Option String × List LogEntry :=
  let mapping :=
    match correlationMapping with
    | some m => some m
    | none =>
        let placeholders := scanPlaceholders urlTemplate.data
        if placeholders.isEmpty then none
        else some (placeholders.foldl (fun m p => objUpsert m p p) [])
  match mapping with
  | none => (some urlTemplate, [])
  | some m => buildUrlLoop store m urlTemplate

/-! ## Token manager (`tokenManager.js`) -/

/-- The validated configuration record stored in `tokenCache.config` by
`initTokenManager` (defaults already applied by the destructuring). -/
structure TokenConfig where
  url : String
  username : String
  password : String
  expirySeconds : Nat := 600
  method : String := "POST"
  bodyTemplate : Option JValue := none
  tokenPath : String := "access_token"
  headers : List (String × String) := []

/-- The module-level `tokenCache` object. -/
structure TokenCache where
  token : Option JValue := some .jnull
  expiresAt : Option Nat := none
  generatedAt : Option Nat := none
  config : Option TokenConfig := none

/-- The `for (const part of pathParts) value = value[part]` walk used on the
token path.  Property access on `null`/`undefined` throws a `TypeError`
(`Except.error`), caught by the surrounding try/catch in the source. -/
def tokenPathLookup (j : JValue) (parts : List String) :
    Except Unit (Option JValue) :=
  parts.foldlM
    (fun v part =>
      match v with
      | none => .error ()
      | some .jnull => .error ()
      | some jv => .ok (jsGetProp jv part))
    (some j)

/-- The `'token in response'` check predicate of `generateToken`: decode the
body, walk the token path, and require a value that is neither undefined nor
null; any thrown error yields `false`. -/
def tokenInResponse (res : Response) (tokenPath : String) : Bool :=
  match res.json with
  | none => false
  | some j =>
      match tokenPathLookup j (jsSplit tokenPath '.') with
      | .error _ => false
      | .ok v => !(isNullOrUndef v)

/-- `generateToken()` from `tokenManager.js`.  The HTTP request itself is
external; `res` is the response the k6 client returns for it.  Reading
`tokenCache.config` when it is null would throw, hence the `Except`.
On failure every path returns `null` (`some .jnull`) with the cache
unchanged; on success the cache's `token`, `generatedAt` and `expiresAt`
fields are updated together, with
`expiresAt = now + config.expirySeconds * 1000`. -/
def generateToken (cache : TokenCache) (res : Response) (now : Nat) :
    Except String (Option JValue × TokenCache × List LogEntry) :=
  match cache.config with
  | none => .error "TypeError: tokenCache.config is null"
  | some config =>
      let logs0 := [LogEntry.info ("[TOKEN] Generating new token from " ++ config.url ++ "...")]
      let success := (res.status == 200 || res.status == 201) &&
        tokenInResponse res config.tokenPath
      if !success then
        .ok (some .jnull, cache,
          logs0 ++ [.error ("[TOKEN] Generation failed - Status: " ++ toString res.status ++
            ", Body: " ++ res.body.take 200)])
      else
        match res.json with
        | none =>
            .ok (some .jnull, cache,
              logs0 ++ [.error "[TOKEN] Error parsing token response"])
        | some j =>
            match tokenPathLookup j (jsSplit config.tokenPath '.') with
            | .error _ =>
                .ok (some .jnull, cache,
                  logs0 ++ [.error "[TOKEN] Error parsing token response"])
            | .ok tok =>
                if !(jsTruthy tok) then
                  .ok (some .jnull, cache,
                    logs0 ++ [.error "[TOKEN] Token not found in response"])
                else
                  let newCache := { cache with
                    token := tok,
                    generatedAt := some now,
                    expiresAt := some (now + config.expirySeconds * 1000) }
                  .ok (tok, newCache,
                    logs0 ++ [.info "[TOKEN] ✓ New token generated"])

/-- Result of a `getToken` call: the returned value, the token cache and
refresh lock afterwards, the number of `generateToken` attempts the call
performed, and the console output. -/
structure GetTokenResult where
  returned : Option JValue
  cache : TokenCache
  lock : Bool
  genAttempts : Nat
  logs : List LogEntry

/-- `getToken(data)` from `tokenManager.js`.  `cache` and `lock` are the
module-level `tokenCache` and `refreshLock`; `data` carries the optional
`data.tokenManager` snapshot from `setup()`; `refreshRes` is the response
the k6 client would return were a refresh request issued.  The refresh
threshold is `generatedAt + expirySeconds * 1000 * 0.8`, i.e.
`generatedAt + expirySeconds * 800` (a null `generatedAt` coerces to 0). -/
def getToken (cache : TokenCache) (lock : Bool) (data : Option TokenCache)
    (now : Nat) (refreshRes : Response) : Except String GetTokenResult :=
  let cache1 :=
    if cache.config.isNone then
      match data with
      | some tm => tm
      | none => cache
    else cache
  match cache1.config with
  | none => .error "Token manager not initialized. Call initTokenManager() in setup()"
  | some cfg =>
      let refreshThreshold := cache1.generatedAt.getD 0 + cfg.expirySeconds * 800
      if refreshThreshold ≤ now then
        if !lock then
          match generateToken cache1 refreshRes now with
          | .error e => .error e
          | .ok (newToken, cache2, genLogs) =>
              let logs := [LogEntry.info "[TOKEN] Token approaching expiry, refreshing..."] ++
                genLogs
              if jsTruthy newToken then
                .ok ⟨newToken, cache2, false, 1, logs⟩
              else
                .ok ⟨cache2.token, cache2, false, 1,
                  logs ++ [.warn "[TOKEN] Refresh failed, using existing token"]⟩
        else
          -- another VU is refreshing: sleep(0.1) and return the current token
          .ok ⟨cache1.token, cache1, lock, 0, []⟩
      else
        .ok ⟨cache1.token, cache1, lock, 0, []⟩

/-- `forceRefreshToken()`. -/
def forceRefreshToken (cache : TokenCache) (res : Response) (now : Nat) :
    Except String (Option JValue × TokenCache × List LogEntry) :=
  match generateToken cache res now with
  | .error e => .error e
  | .ok (tok, cache2, logs) =>
      .ok (tok, cache2, [LogEntry.info "[TOKEN] Force refresh requested"] ++ logs)

/-- `isTokenValid()`: a pure read of the cache. -/
def isTokenValid (cache : TokenCache) (now : Nat) : Bool :=
  match cache.expiresAt with
  | none => false
  | some ea => jsTruthy cache.token && decide (now < ea)

/-- `getTokenTTL()`: a pure read of the cache. -/
def getTokenTTL (cache : TokenCache) (now : Nat) : Nat :=
  match cache.expiresAt with
  | none => 0
  | some ea => ea - now

/-! ## CSV data manager (`csvManager.js`) -/

/-- One parsed CSV record: field name to string value. -/
abbrev Row := List (String × String)

/-- Options object of `getUniqueData`. -/
structure GetUniqueOptions where
  abortOnExhaustion : Bool := true
  logExhaustion : Bool := true

/-- The outcome of an operation that may call `exec.test.abort(reason)`:
either the run is aborted with the reason string, or a value (possibly
null/undefined, modelled as `none`) is returned. -/
inductive DataOutcome (α : Type) where
  | aborted (reason : String)
  | returned (row : Option α)

/-- The allocation index computed by `getUniqueData`:
`(vuId - 1) * 1000 + iteration`, with 1000 the assumed maximum number of
iterations per VU. -/
def allocationIndex (vuId iteration : Int) : Int :=
  (vuId - 1) * 1000 + iteration

/-- `getUniqueData(dataArray, vuId, iteration, options)` from
`csvManager.js`: abort (or return null) on an empty/absent array, compute the
allocation index, signal exhaustion when it reaches the array length, and
otherwise return the row at the index (a negative index reads `undefined`,
modelled as `none`). -/
def getUniqueData (dataArray : Option (List Row)) (vuId iteration : Int)
    (opts : GetUniqueOptions) : DataOutcome Row × List LogEntry :=
  let isEmptyArr :=
    match dataArray with
    | none => true
    | some rows => rows.length == 0
  if isEmptyArr then
    let logs := if opts.logExhaustion then [LogEntry.error "[DATA] Data array is empty!"] else []
    if opts.abortOnExhaustion then (.aborted "CSV data array is empty", logs)
    else (.returned none, logs)
  else
    let rows := dataArray.getD []
    let index := allocationIndex vuId iteration
    if (rows.length : Int) ≤ index then
      let logs :=
        if opts.logExhaustion then
          [LogEntry.error ("[DATA] Data exhausted! VU " ++ toString vuId ++ ", Iter " ++
            toString iteration ++ ", Index " ++ toString index ++ " exceeds " ++
            toString rows.length ++ " records")]
        else []
      if opts.abortOnExhaustion then
        (.aborted ("CSV data exhausted at VU " ++ toString vuId ++ ", Iteration " ++
          toString iteration), logs)
      else (.returned none, logs)
    else
      (.returned (if index < 0 then none else rows[index.toNat]?), [])

/-! ## Response validators (`validators.js`) -/

/-- The two module-level custom metrics: the `business_errors` counter and
the `business_error_rate` rate (modelled as the list of its recorded
samples, in order). -/
structure Metrics where
  businessErrors : Nat := 0
  businessErrorRateAdds : List Nat := []
deriving DecidableEq

/-- Configuration object of `validateResponse` (defaults as destructured in
the source).  `apiName` is `none` when absent; an empty string is equally
falsy to the `!apiName` guard.  `bodyContains`/`bodyNotContains` accept a
string or an array in JavaScript; the source immediately normalises the
string case to a one-element array, which is the form modelled here. -/
structure ValidationConfig where
  apiName : Option String := none
  expectedStatus : Int := 200
  expectedStatuses : Option (List Int) := none
  checkBody : Bool := false
  bodyContains : Option (List String) := none
  bodyNotContains : Option (List String) := none
  jsonSchema : Option (List (String × String)) := none
  customChecks : Option (List (String × (Response → Bool))) := none

/-- `!apiName` for an optional string: absent or empty. -/
def falsyStr : Option String → Bool
  | none => true
  | some s => s == ""

/-- The `field in json` test of the per-field schema check (`in` on a
primitive throws, caught to `false`; on an array it sees index keys and
`length`). -/
def jsHasField (r : Response) (field : String) : Bool :=
  match r.json with
  | none => false
  | some (.jobj fields) => fields.any (fun p => p.1 == field)
  | some (.jarr xs) =>
      field == "length" ||
        (match field.toNat? with
         | some i => toString i == field && decide (i < xs.length)
         | none => false)
  | some _ => false

/-- The per-field type check of the schema validation:
`Array.isArray(value) ? 'array' : typeof value` compared with the declared
type name (`json[field]` on a null document throws, caught to `false`). -/
def jsFieldTypeIs (r : Response) (field expectedType : String) : Bool :=
  match r.json with
  | none => false
  | some .jnull => false
  | some j => jsTypeOf (jsGetProp j field) == expectedType

/-- The named check set built by `validateResponse`, in insertion order
(JavaScript object keys), assembled with `objUpsert` to model key
collisions.  Each entry is the check name and its predicate. -/
def buildChecks (apiName : String) (config : ValidationConfig) :
    List (String × (Response → Bool)) :=
  let cs : List (String × (Response → Bool)) := []
  let cs :=
    match config.expectedStatuses with
    | some sts =>
        objUpsert cs
          (apiName ++ ": status in [" ++ String.intercalate "," (sts.map toString) ++ "]")
          (fun r => sts.contains r.status)
    | none =>
        objUpsert cs (apiName ++ ": status " ++ toString config.expectedStatus)
          (fun r => r.status == config.expectedStatus)
  let cs := objUpsert cs (apiName ++ ": response time < 5s")
      (fun r => r.timingsDuration < 5000)
  let cs :=
    if config.checkBody || config.bodyContains.isSome || config.jsonSchema.isSome then
      objUpsert cs (apiName ++ ": has response body") (fun r => r.body != "")
    else cs
  let cs :=
    match config.bodyContains with
    | some texts =>
        texts.foldl
          (fun cs text =>
            objUpsert cs (apiName ++ ": body contains \x27" ++ text ++ "\x27")
              (fun r => r.body != "" && strIncludes r.body text))
          cs
    | none => cs
  let cs :=
    match config.bodyNotContains with
    | some texts =>
        texts.foldl
          (fun cs text =>
            objUpsert cs (apiName ++ ": body does not contain \x27" ++ text ++ "\x27")
              (fun r => r.body == "" || !strIncludes r.body text))
          cs
    | none => cs
  let cs :=
    match config.jsonSchema with
    | some schema =>
        let cs := objUpsert cs (apiName ++ ": valid JSON response") (fun r => r.json.isSome)
        schema.foldl
          (fun cs fieldSpec =>
            let cs := objUpsert cs (apiName ++ ": has field \x27" ++ fieldSpec.1 ++ "\x27")
                (fun r => jsHasField r fieldSpec.1)
            if fieldSpec.2 != "" then
              objUpsert cs
                (apiName ++ ": \x27" ++ fieldSpec.1 ++ "\x27 is " ++ fieldSpec.2)
                (fun r => jsFieldTypeIs r fieldSpec.1 fieldSpec.2)
            else cs)
          cs
    | none => cs
  let cs :=
    match config.customChecks with
    | some cc => cc.foldl (fun cs c => objUpsert cs (apiName ++ ": " ++ c.1) c.2) cs
    | none => cs
  cs

/-- Result of a `validateResponse` call: the returned boolean, the executed
check records (name and outcome, as k6's `check` would tag them), the metric
state afterwards, and the console output. -/
structure ValidateResult where
  ok : Bool
  checksRun : List (String × Bool)
  metrics : Metrics
  logs : List LogEntry

/-- `validateResponse(response, config)` from `validators.js`: reject a
missing API name before building or running any check, otherwise run every
check (the k6 `check` call returns their conjunction) and then record a
business error sample — 1 with a counter increment when the status lies
outside [200, 300), 0 otherwise. -/
def validateResponse (response : Response) (config : ValidationConfig)
    (m : Metrics) : ValidateResult :=
  if falsyStr config.apiName then
    ⟨false, [], m, [.error "[VALIDATION] API name is required for validation"]⟩
  else
    let apiName := config.apiName.getD ""
    let checks := buildChecks apiName config
    let checksRun := checks.map (fun c => (c.1, c.2 response))
    let result := checksRun.all (fun c => c.2)
    let m' :=
      if response.status < 200 || 300 ≤ response.status then
        { businessErrors := m.businessErrors + 1,
          businessErrorRateAdds := m.businessErrorRateAdds ++ [1] }
      else
        { m with businessErrorRateAdds := m.businessErrorRateAdds ++ [0] }
    ⟨result, checksRun, m', []⟩

/-! ## Concrete example inputs used by counterexamples and witnesses -/

/-- A 201 response whose body decodes to `{"data": null}`. -/
def exRespDataNull : Response :=
  ⟨201, "\x7b\"data\":null\x7d", 100, some (.jobj [("data", .jnull)])⟩

/-- A correlation store holding `id = 7` and `sub = 9`. -/
def exStoreIdSub : CorrelationStore :=
  [("id", ⟨some (.jnum 7), 0, "manual"⟩), ("sub", ⟨some (.jnum 9), 0, "manual"⟩)]

/-- A correlation store holding only `id = 7`. -/
def exStoreIdOnly : CorrelationStore := [("id", ⟨some (.jnum 7), 0, "manual"⟩)]

/-- A response with status 201, body `{"id":"u1"}` and the given measured
duration. -/
def exCreateRes (d : Nat) : Response :=
  ⟨201, "\x7b\"id\":\"u1\"\x7d", d, some (.jobj [("id", .jstr "u1")])⟩

/-- The same response with status 500. -/
def exErrorRes (d : Nat) : Response :=
  ⟨500, "\x7b\"id\":\"u1\"\x7d", d, some (.jobj [("id", .jstr "u1")])⟩

/-- The validation configuration of the spec scenario:
`{apiName, expectedStatus: 201, jsonSchema: {id: 'string'}}`. -/
def exValidationCfg : ValidationConfig :=
  { apiName := some "Create_User", expectedStatus := 201,
    jsonSchema := some [("id", "string")] }

/-- A token configuration with the default 600-second lifetime. -/
def exTokenCfg : TokenConfig := { url := "https://auth/token", username := "u", password := "p" }

/-- An initialized token cache: token generated at time 0 with the
configuration above. -/
def exTokenCache : TokenCache :=
  { token := some (.jstr "tok0"), expiresAt := some 600000, generatedAt := some 0,
    config := some exTokenCfg }

/-- A token-endpoint response carrying a fresh token. -/
def exTokenRes : Response :=
  ⟨200, "\x7b\"access_token\":\"tok1\"\x7d", 50, some (.jobj [("access_token", .jstr "tok1")])⟩

/-- A failing token-endpoint response. -/
def exTokenResBad : Response := ⟨500, "oops", 50, none⟩

/-- A three-row dataset. -/
def exRows : List Row := [[("user", "u1")], [("user", "u2")], [("user", "u3")]]

/-- The cache state after `generateToken exTokenCache exTokenRes 1000`. -/
def exTokenCacheAfter : TokenCache :=
  { token := some (.jstr "tok1"), expiresAt := some 601000, generatedAt := some 1000,
    config := some exTokenCfg }

/-- The console output of that successful generation. -/
def exGenLogs : List LogEntry :=
  [.info "[TOKEN] Generating new token from https://auth/token...",
   .info "[TOKEN] ✓ New token generated"]

/-! ## Theorems -/

/-- C3: for all worker ids `w1 ≠ w2` (positive integers) and sequence numbers
`s1, s2` with `0 ≤ s < 1000` (the assumed max-per-worker bound), the
allocation indices `(w - 1) * 1000 + s` computed by `getUniqueData` are
distinct. -/
theorem allocationIndex_injective (w1 w2 s1 s2 : Int)
    (_hw1 : 1 ≤ w1) (_hw2 : 1 ≤ w2) (hne : w1 ≠ w2)
    (hs1l : 0 ≤ s1) (hs1u : s1 < 1000) (hs2l : 0 ≤ s2) (hs2u : s2 < 1000) :
    allocationIndex w1 s1 ≠ allocationIndex w2 s2 := by
  simp only [allocationIndex]
  omega

/-- Witness for C3 at workers 1 and 2 with sequence numbers 999 and 0. -/
theorem allocationIndex_injective_witness :
    allocationIndex 1 999 ≠ allocationIndex 2 0 :=
  allocationIndex_injective 1 2 999 0 (by decide) (by decide) (by decide)
    (by decide) (by decide) (by decide) (by decide)

/-- C8: after `clearCorrelations`, `getCorrelatedValue` returns the fallback
for every key (never a pre-clear value) and `hasCorrelation` is false for
every key, whatever was stored before. -/
theorem clearCorrelations_resets (store : CorrelationStore) (key : String)
    (fallback : Option JValue) :
    getCorrelatedValue (clearCorrelations store) key fallback = fallback ∧
    hasCorrelation (clearCorrelations store) key = false :=
  ⟨rfl, rfl⟩

/-- C10: when the config has no (or an empty) API name, `validateResponse`
logs an error and returns false immediately: no check predicate is run and
the business-error metrics are untouched. -/
theorem validateResponse_missing_apiName (response : Response)
    (config : ValidationConfig) (m : Metrics)
    (h : falsyStr config.apiName = true) :
    validateResponse response config m =
      ⟨false, [], m, [.error "[VALIDATION] API name is required for validation"]⟩ := by
  simp [validateResponse, h]

/-- Witness for C10: a default config (absent API name) on a concrete
response. -/
theorem validateResponse_missing_apiName_witness :
    validateResponse (exCreateRes 100) {} {} =
      ⟨false, [], {}, [.error "[VALIDATION] API name is required for validation"]⟩ :=
  validateResponse_missing_apiName (exCreateRes 100) {} {} rfl

/-- C4: when the allocation index reaches the dataset length, `getUniqueData`
signals exhaustion — aborting the run when `abortOnExhaustion` (the default)
and returning an absent value otherwise — and a row is only ever returned
from within the dataset's bounds, at the allocation index. -/
theorem getUniqueData_exhaustion (rows : List Row) (vuId iteration : Int)
    (opts : GetUniqueOptions) :
    ((rows.length : Int) ≤ allocationIndex vuId iteration →
       (opts.abortOnExhaustion = true →
          ∃ reason, (getUniqueData (some rows) vuId iteration opts).1 = .aborted reason) ∧
       (opts.abortOnExhaustion = false →
          (getUniqueData (some rows) vuId iteration opts).1 = .returned none)) ∧
    (∀ row : Row, (getUniqueData (some rows) vuId iteration opts).1 = .returned (some row) →
       ∃ i : Nat, (i : Int) = allocationIndex vuId iteration ∧ i < rows.length ∧
         rows[i]? = some row) := by
  unfold getUniqueData
  by_cases hlen : rows.length = 0
  · simp only [hlen, Nat.cast_zero, beq_self_eq_true, if_true]
    constructor
    · intro _
      constructor
      · intro habort; simp only [habort, if_true]; exact ⟨_, rfl⟩
      · intro habort; simp only [habort, Bool.false_eq_true, if_false]
    · intro row h
      revert h
      split <;> simp
  · have hlen' : (rows.length == 0) = false := by simp [hlen]
    simp only [hlen', Bool.false_eq_true, if_false, Option.getD_some]
    constructor
    · intro hex
      have : ¬ ((rows.length : Int) ≤ allocationIndex vuId iteration → False) := fun h => h hex
      constructor
      · intro habort
        rw [if_pos hex, if_pos habort]
        exact ⟨_, rfl⟩
      · intro habort
        rw [if_pos hex, if_neg (by simp [habort])]
    · intro row h
      by_cases hex : (rows.length : Int) ≤ allocationIndex vuId iteration
      · rw [if_pos hex] at h
        revert h
        split <;> simp
      · rw [if_neg hex] at h
        by_cases hneg : allocationIndex vuId iteration < 0
        · rw [if_pos hneg] at h
          simp at h
        · rw [if_neg hneg] at h
          refine ⟨(allocationIndex vuId iteration).toNat, ?_, ?_, ?_⟩
          · omega
          · omega
          · simpa using h

/-- Witness for C4: the spec scenario — three rows, worker 1, sequence 3
aborts under the default options; with `abortOnExhaustion := false` it
returns an absent value. -/
theorem getUniqueData_exhaustion_witness :
    (∃ reason, (getUniqueData (some exRows) 1 3 {}).1 = .aborted reason) ∧
    (getUniqueData (some exRows) 1 3 { abortOnExhaustion := false }).1 = .returned none :=
  ⟨((getUniqueData_exhaustion exRows 1 3 {}).1 (by decide)).1 rfl,
   ((getUniqueData_exhaustion exRows 1 3 { abortOnExhaustion := false }).1
     (by decide)).2 rfl⟩

/-- Helper: with a configuration present, `generateToken` never throws. -/
theorem generateToken_isOk (cache : TokenCache) (cfg : TokenConfig)
    (res : Response) (now : Nat) (hcfg : cache.config = some cfg) :
    ∃ p : Option JValue × TokenCache × List LogEntry,
      generateToken cache res now = .ok p := by
  unfold generateToken
  rw [hcfg]
  dsimp only
  split
  · exact ⟨_, rfl⟩
  · split
    · exact ⟨_, rfl⟩
    · split
      · exact ⟨_, rfl⟩
      · split
        · exact ⟨_, rfl⟩
        · exact ⟨_, rfl⟩

/-- Helper: the cache transition of `generateToken`.  A non-truthy result is
the literal `null` and leaves the cache untouched; a truthy result rewrites
`token`, `generatedAt` and `expiresAt` together, with
`expiresAt = now + expirySeconds * 1000`. -/
theorem generateToken_state (cache : TokenCache) (cfg : TokenConfig)
    (res : Response) (now : Nat) (t : Option JValue) (c2 : TokenCache)
    (lg : List LogEntry) (hcfg : cache.config = some cfg)
    (hok : generateToken cache res now = .ok (t, c2, lg)) :
    (jsTruthy t = false → t = some .jnull ∧ c2 = cache) ∧
    (jsTruthy t = true →
       c2 = ⟨t, some (now + cfg.expirySeconds * 1000), some now, cache.config⟩) := by
  unfold generateToken at hok
  rw [hcfg] at hok
  dsimp only at hok
  split at hok
  · cases hok
    exact ⟨fun _ => ⟨rfl, rfl⟩, fun ht => by simp [jsTruthy] at ht⟩
  · split at hok
    · cases hok
      exact ⟨fun _ => ⟨rfl, rfl⟩, fun ht => by simp [jsTruthy] at ht⟩
    · split at hok
      · cases hok
        exact ⟨fun _ => ⟨rfl, rfl⟩, fun ht => by simp [jsTruthy] at ht⟩
      · split at hok
        · cases hok
          exact ⟨fun _ => ⟨rfl, rfl⟩, fun ht => by simp [jsTruthy] at ht⟩
        · cases hok
          rename_i tok hjson htruthy
          constructor
          · intro ht
            rw [ht] at htruthy
            simp at htruthy
          · intro _
            rw [hcfg]

/-- C2: for an initialized token cache generated at `t0` with lifetime
`expirySeconds`, a `getToken` call strictly before
`t0 + expirySeconds * 1000 * 0.8` performs zero regeneration attempts and
returns the cached token unchanged; a call at or past that threshold with
the refresh lock clear performs exactly one regeneration attempt. -/
theorem getToken_refresh_threshold (cache : TokenCache) (cfg : TokenConfig)
    (t0 : Nat) (lock : Bool) (now : Nat) (res : Response)
    (hcfg : cache.config = some cfg) (hgen : cache.generatedAt = some t0) :
    (now < t0 + cfg.expirySeconds * 800 →
       getToken cache lock none now res = .ok ⟨cache.token, cache, lock, 0, []⟩) ∧
    (t0 + cfg.expirySeconds * 800 ≤ now → lock = false →
       ∃ out : GetTokenResult,
         getToken cache lock none now res = .ok out ∧ out.genAttempts = 1) := by
  unfold getToken
  simp only [hcfg, Option.isNone_some, Bool.false_eq_true, if_false, hgen,
    Option.getD_some]
  constructor
  · intro h
    rw [if_neg (by omega)]
  · intro h hl
    subst hl
    rw [if_pos h]
    simp only [Bool.not_false, if_true]
    obtain ⟨⟨t, c2, lg⟩, hp⟩ := generateToken_isOk cache cfg res now hcfg
    rw [hp]
    cases ht : jsTruthy t <;> simp only [ht, if_true, Bool.false_eq_true, if_false]
    · exact ⟨_, rfl, rfl⟩
    · exact ⟨_, rfl, rfl⟩

/-- Witness for C2 on a concrete initialized cache (lifetime 600 s, generated
at 0): a call at 1000 ms returns the cached token with zero attempts; a call
at the threshold 480000 ms performs one attempt. -/
theorem getToken_refresh_threshold_witness :
    getToken exTokenCache false none 1000 exTokenRes =
      .ok ⟨exTokenCache.token, exTokenCache, false, 0, []⟩ ∧
    ∃ out : GetTokenResult,
      getToken exTokenCache false none 480000 exTokenRes = .ok out ∧
        out.genAttempts = 1 :=
  ⟨(getToken_refresh_threshold exTokenCache exTokenCfg 0 false 1000 exTokenRes
      rfl rfl).1 (by decide),
   (getToken_refresh_threshold exTokenCache exTokenCfg 0 false 480000 exTokenRes
      rfl rfl).2 (by decide) rfl⟩

/-- C9: at or past the refresh threshold with the lock clear, a failed
regeneration makes `getToken` log the refresh-failure warning and return the
previously cached (stale) token with the cache unchanged; and on an
initialized cache `getToken` never raises, whatever the time, lock state or
response. -/
theorem getToken_refresh_failure (cache : TokenCache) (cfg : TokenConfig)
    (t0 now : Nat) (res : Response) (t : Option JValue) (c2 : TokenCache)
    (genLogs : List LogEntry)
    (hcfg : cache.config = some cfg) (hgen : cache.generatedAt = some t0)
    (hthresh : t0 + cfg.expirySeconds * 800 ≤ now)
    (hfail : generateToken cache res now = .ok (t, c2, genLogs))
    (ht : jsTruthy t = false) :
    getToken cache false none now res =
      .ok ⟨cache.token, cache, false, 1,
        [.info "[TOKEN] Token approaching expiry, refreshing..."] ++ genLogs ++
          [.warn "[TOKEN] Refresh failed, using existing token"]⟩ ∧
    ∀ (lk : Bool) (n : Nat) (r : Response),
      ∃ out : GetTokenResult, getToken cache lk none n r = .ok out := by
  have hstate := (generateToken_state cache cfg res now t c2 genLogs hcfg hfail).1 ht
  constructor
  · unfold getToken
    simp only [hcfg, Option.isNone_some, Bool.false_eq_true, if_false, hgen,
      Option.getD_some]
    rw [if_pos hthresh]
    simp only [Bool.not_false, if_true, hfail, ht, Bool.false_eq_true, if_false]
    rw [hstate.2]
  · intro lk n r
    unfold getToken
    simp only [hcfg, Option.isNone_some, Bool.false_eq_true, if_false, hgen,
      Option.getD_some]
    by_cases hth : t0 + cfg.expirySeconds * 800 ≤ n
    · rw [if_pos hth]
      cases lk
      · simp only [Bool.not_false, if_true]
        obtain ⟨⟨t2, c3, lg2⟩, hp⟩ := generateToken_isOk cache cfg r n hcfg
        rw [hp]
        cases ht2 : jsTruthy t2 <;>
          simp only [ht2, if_true, Bool.false_eq_true, if_false] <;> exact ⟨_, rfl⟩
      · simp only [Bool.not_true, Bool.false_eq_true, if_false]
        exact ⟨_, rfl⟩
    · rw [if_neg hth]
      exact ⟨_, rfl⟩

set_option maxRecDepth 10000 in
/-- Witness for C9: the concrete initialized cache with a failing refresh
response at the threshold returns the stale `tok0` and never throws. -/
theorem getToken_refresh_failure_witness :
    getToken exTokenCache false none 480000 exTokenResBad =
      .ok ⟨exTokenCache.token, exTokenCache, false, 1,
        [.info "[TOKEN] Token approaching expiry, refreshing..."] ++
          [.info "[TOKEN] Generating new token from https://auth/token...",
           .error "[TOKEN] Generation failed - Status: 500, Body: oops"] ++
          [.warn "[TOKEN] Refresh failed, using existing token"]⟩ ∧
    ∀ (lk : Bool) (n : Nat) (r : Response),
      ∃ out : GetTokenResult, getToken exTokenCache lk none n r = .ok out :=
  getToken_refresh_failure exTokenCache exTokenCfg 0 480000 exTokenResBad
    (some .jnull) exTokenCache
    [.info "[TOKEN] Generating new token from https://auth/token...",
     .error "[TOKEN] Generation failed - Status: 500, Body: oops"]
    rfl rfl (by decide) rfl rfl

/-- C6: a successful `generateToken` updates `token`, `generatedAt` and
`expiresAt` together in the one generation step, establishing
`expiresAt = generatedAt + expirySeconds * 1000`; a failed one leaves the
cache untouched; and `getToken` only ever changes the cache through a
`generateToken` call. -/
theorem generateToken_atomic_expiry (cache : TokenCache) (cfg : TokenConfig)
    (res : Response) (now : Nat) (t : Option JValue) (c2 : TokenCache)
    (lg : List LogEntry) (hcfg : cache.config = some cfg)
    (hok : generateToken cache res now = .ok (t, c2, lg)) :
    (jsTruthy t = true →
       c2.token = t ∧ c2.generatedAt = some now ∧
       c2.expiresAt = some (now + cfg.expirySeconds * 1000) ∧
       c2.config = cache.config ∧
       c2.expiresAt = c2.generatedAt.map (fun g => g + cfg.expirySeconds * 1000)) ∧
    (jsTruthy t = false → c2 = cache) ∧
    (∀ (lk : Bool) (d : Option TokenCache) (n : Nat) (r : Response)
       (out : GetTokenResult),
       getToken cache lk d n r = .ok out →
       out.cache = cache ∨
         ∃ t2 lg2, generateToken cache r n = .ok (t2, out.cache, lg2)) := by
  have hstate := generateToken_state cache cfg res now t c2 lg hcfg hok
  refine ⟨?_, fun ht => (hstate.1 ht).2, ?_⟩
  · intro ht
    rw [hstate.2 ht, hcfg]
    exact ⟨rfl, rfl, rfl, rfl, rfl⟩
  · intro lk d n r out hout
    unfold getToken at hout
    simp only [hcfg, Option.isNone_some, Bool.false_eq_true, if_false,
      Option.getD_some] at hout
    by_cases hth : cache.generatedAt.getD 0 + cfg.expirySeconds * 800 ≤ n
    · rw [if_pos hth] at hout
      cases lk
      · simp only [Bool.not_false, if_true] at hout
        obtain ⟨⟨t2, c3, lg2⟩, hp⟩ := generateToken_isOk cache cfg r n hcfg
        rw [hp] at hout
        cases ht2 : jsTruthy t2 <;>
            simp only [ht2, if_true, Bool.false_eq_true, if_false] at hout <;>
          cases hout
        · exact .inr ⟨t2, lg2, hp⟩
        · exact .inr ⟨t2, lg2, hp⟩
      · simp only [Bool.not_true, Bool.false_eq_true, if_false] at hout
        cases hout
        exact .inl rfl
    · rw [if_neg hth] at hout
      cases hout
      exact .inl rfl

set_option maxRecDepth 10000 in
/-- Witness for C6: the concrete successful generation at time 1000 sets
`generatedAt = 1000` and `expiresAt = 601000` together with the fresh token,
satisfying the expiry invariant. -/
theorem generateToken_atomic_expiry_witness :
    exTokenCacheAfter.token = some (.jstr "tok1") ∧
    exTokenCacheAfter.generatedAt = some 1000 ∧
    exTokenCacheAfter.expiresAt = some (1000 + exTokenCfg.expirySeconds * 1000) ∧
    exTokenCacheAfter.config = exTokenCache.config ∧
    exTokenCacheAfter.expiresAt =
      exTokenCacheAfter.generatedAt.map (fun g => g + exTokenCfg.expirySeconds * 1000) :=
  (generateToken_atomic_expiry exTokenCache exTokenCfg exTokenRes 1000
    (some (.jstr "tok1")) exTokenCacheAfter exGenLogs rfl (by rfl)).1 rfl


/-- C1 counterexample: for the concrete 201 response whose body decodes to
`{"data": null}`, path `data` resolves to null and `required` holds (the
default), yet `extractAndStore` returns null with the store left EMPTY — no
null value is stored under the key, contrary to the claim. -/
theorem extractAndStore_required_counterexample :
    (extractAndStore exRespDataNull "data" "objectId" {} [] 0).1 = some .jnull ∧
    (extractAndStore exRespDataNull "data" "objectId" {} [] 0).2.1 = [] ∧
    storeGet (extractAndStore exRespDataNull "data" "objectId" {} [] 0).2.1
      "objectId" = none :=
  ⟨rfl, rfl, rfl⟩

/-- C1 (amended): when path resolution yields null/undefined,
`extractAndStore` under `required` (the default) logs an error block
including the response status and truncated body and returns null WITHOUT
storing anything under the key; under `required := false` it logs a warning
instead (when logging is enabled) and does store the resolved value under
the key, returning it. -/
theorem extractAndStore_nullish (response : Response)
    (jsonPath correlationKey : String) (opts : ExtractOptions)
    (store : CorrelationStore) (now : Nat)
    (hnull : isNullOrUndef (extractJsonValue response jsonPath opts.defaultValue).1 = true) :
    (opts.required = true →
       extractAndStore response jsonPath correlationKey opts store now =
         (some .jnull, store,
          (extractJsonValue response jsonPath opts.defaultValue).2 ++
            [.error ("[CORRELATION] Failed to extract \x27" ++ correlationKey ++
               "\x27 from path \x27" ++ jsonPath ++ "\x27"),
             .error ("[CORRELATION] Response status: " ++ toString response.status),
             .error ("[CORRELATION] Response body: " ++ response.body.take 200)])) ∧
    (opts.required = false → opts.logExtraction = true →
       extractAndStore response jsonPath correlationKey opts store now =
         ((extractJsonValue response jsonPath opts.defaultValue).1,
          storeSet store correlationKey
            ⟨(extractJsonValue response jsonPath opts.defaultValue).1, now, jsonPath⟩,
          (extractJsonValue response jsonPath opts.defaultValue).2 ++
            [.warn ("[CORRELATION] Failed to extract \x27" ++ correlationKey ++
               "\x27 from path \x27" ++ jsonPath ++ "\x27" ++ " (optional)")] ++
            [.info ("[CORRELATION] ✓ Stored \x27" ++ correlationKey ++ "\x27 = " ++
               jsDisplay (extractJsonValue response jsonPath opts.defaultValue).1)])) := by
  constructor
  · intro hreq
    unfold extractAndStore
    simp only [hnull, hreq, Bool.and_self, if_true]
  · intro hreq hlog
    unfold extractAndStore
    simp only [hnull, hreq, hlog, Bool.and_false, Bool.false_eq_true, if_false, if_true]

/-- Witness for C1 (amended) at the concrete response with
`required := false`: the null value is stored under the key and a warning
plus the stored-info line are logged. -/
theorem extractAndStore_nullish_witness :
    extractAndStore exRespDataNull "data" "uid" { required := false } [] 3 =
      (some .jnull, [("uid", ⟨some .jnull, 3, "data"⟩)],
       [.warn "[CORRELATION] Failed to extract \x27uid\x27 from path \x27data\x27 (optional)",
        .info "[CORRELATION] ✓ Stored \x27uid\x27 = null"]) :=
  (extractAndStore_nullish exRespDataNull "data" "uid" { required := false } [] 3
    rfl).2 rfl rfl

/-- Helper: as soon as one mapped correlation key has a null/undefined
stored value, the substitution loop yields null, whatever substitutions were
already made. -/
theorem buildUrlLoop_missing (store : CorrelationStore)
    (mapping : List (String × String)) :
    ∀ template : String,
    mapping.any (fun e => isNullOrUndef (getCorrelatedValue store e.2 (some .jnull))) = true →
    (buildUrlLoop store mapping template).1 = none := by
  induction mapping with
  | nil => intro template h; simp at h
  | cons e rest ih =>
      intro template h
      rcases e with ⟨ph, key⟩
      unfold buildUrlLoop
      by_cases hk : isNullOrUndef (getCorrelatedValue store key (some .jnull)) = true
      · simp [hk]
      · simp only [List.any_cons, Bool.or_eq_true] at h
        rcases h with h | h
        · exact absurd h hk
        · simp only [Bool.not_eq_true] at hk
          simp only [hk, Bool.false_eq_true, if_false]
          exact ih _ h

/-- Helper: when every mapped correlation key has a non-null stored value,
the substitution loop returns the left fold of first-occurrence
replacements. -/
theorem buildUrlLoop_all_present (store : CorrelationStore)
    (mapping : List (String × String)) :
    ∀ template : String,
    mapping.all (fun e => !isNullOrUndef (getCorrelatedValue store e.2 (some .jnull))) = true →
    (buildUrlLoop store mapping template).1 =
      some (mapping.foldl (fun url e =>
        replaceFirst url ("\x7b" ++ e.1 ++ "\x7d")
          (jsDisplay (getCorrelatedValue store e.2 (some .jnull)))) template) := by
  induction mapping with
  | nil => intro template _; rfl
  | cons e rest ih =>
      intro template h
      rcases e with ⟨ph, key⟩
      simp only [List.all_cons, Bool.and_eq_true, Bool.not_eq_true] at h
      unfold buildUrlLoop
      rw [if_neg (by simpa using h.1)]
      rw [List.foldl_cons]
      exact ih _ h.2

/-- C5 counterexample: with only `id = 7` stored, the template
`/x/{id}/y/{id}` (the same placeholder twice, auto-derived mapping) yields
`/x/7/y/{id}` — the second occurrence is NOT substituted and the partially
substituted URL is returned, contrary to the claim. -/
theorem buildCorrelatedUrl_repeated_placeholder :
    (buildCorrelatedUrl exStoreIdOnly "/x/\x7bid\x7d/y/\x7bid\x7d" none).1 =
      some "/x/7/y/\x7bid\x7d" ∧
    strIncludes "/x/7/y/\x7bid\x7d" "\x7bid\x7d" = true :=
  ⟨rfl, rfl⟩

/-- C5 (amended): `buildCorrelatedUrl` substitutes, for each mapping entry
in order, only the FIRST occurrence of its `{placeholder}` (so a placeholder
occurring several times is substituted once and can remain in the result);
it returns null after logging when any mapped correlation key has no stored
non-null value; and on the spec example (`id = 7`, `sub = 9`, each
placeholder occurring once) it produces `/x/7/y/9`, while omitting `sub`
yields null with the missing-key error logged. -/
theorem buildCorrelatedUrl_subst (store : CorrelationStore)
    (mapping : List (String × String)) (template : String) :
    (mapping.any (fun e => isNullOrUndef (getCorrelatedValue store e.2 (some .jnull))) = true →
       (buildCorrelatedUrl store template (some mapping)).1 = none) ∧
    (mapping.all (fun e => !isNullOrUndef (getCorrelatedValue store e.2 (some .jnull))) = true →
       (buildCorrelatedUrl store template (some mapping)).1 =
         some (mapping.foldl (fun url e =>
           replaceFirst url ("\x7b" ++ e.1 ++ "\x7d")
             (jsDisplay (getCorrelatedValue store e.2 (some .jnull)))) template)) ∧
    (buildCorrelatedUrl exStoreIdSub "/x/\x7bid\x7d/y/\x7bsub\x7d" none).1 =
      some "/x/7/y/9" ∧
    (buildCorrelatedUrl exStoreIdOnly "/x/\x7bid\x7d/y/\x7bsub\x7d" none).1 = none ∧
    (buildCorrelatedUrl exStoreIdOnly "/x/\x7bid\x7d/y/\x7bsub\x7d" none).2 =
      [.error "[CORRELATION] Cannot build URL: missing correlation \x27sub\x27 for placeholder \x27\x7bsub\x7d\x27"] :=
  ⟨fun h => buildUrlLoop_missing store mapping template h,
   fun h => buildUrlLoop_all_present store mapping template h,
   rfl, rfl, rfl⟩

/-- Witness for C5 (amended): both quantified branches at concrete inputs —
a missing `sub` key forces null, and with both keys present the fold of
first-occurrence replacements produces the URL. -/
theorem buildCorrelatedUrl_subst_witness :
    (buildCorrelatedUrl exStoreIdOnly "/a/\x7bsub\x7d" (some [("sub", "sub")])).1 = none ∧
    (buildCorrelatedUrl exStoreIdSub "/a/\x7bid\x7d" (some [("id", "id")])).1 =
      some (replaceFirst "/a/\x7bid\x7d" "\x7bid\x7d"
        (jsDisplay (getCorrelatedValue exStoreIdSub "id" (some .jnull)))) :=
  ⟨(buildCorrelatedUrl_subst exStoreIdOnly [("sub", "sub")] "/a/\x7bsub\x7d").1 rfl,
   (buildCorrelatedUrl_subst exStoreIdSub [("id", "id")] "/a/\x7bid\x7d").2.1 rfl⟩


/-- C7 counterexample: the response carries status 201 and body
`{"id":"u1"}` exactly as the claim describes, but its measured duration of
6000 ms makes the always-included response-time check fail, so
`validateResponse` returns false where the claim asserts true. -/
theorem validateResponse_slow_counterexample :
    (exCreateRes 6000).status = 201 ∧
    (exCreateRes 6000).body = "\x7b\"id\":\"u1\"\x7d" ∧
    (validateResponse (exCreateRes 6000) exValidationCfg {}).ok = false :=
  ⟨rfl, rfl, rfl⟩

/-- C7 (amended): provided the measured duration stays below the 5000 ms
ceiling of the always-included response-time check, `validateResponse` on
the 201 response with body `{"id":"u1"}` under
`{expectedStatus: 201, jsonSchema: {id: string}}` returns true, records a 0
on the business-error rate and leaves the counter unchanged; on the same
body with status 500 it returns false whatever the duration and increments
both the counter and the rate, 500 lying outside [200, 300). -/
theorem validateResponse_statuses (d : Nat) (m : Metrics) (hd : d < 5000) :
    (validateResponse (exCreateRes d) exValidationCfg m).ok = true ∧
    (validateResponse (exCreateRes d) exValidationCfg m).metrics.businessErrors =
      m.businessErrors ∧
    (validateResponse (exCreateRes d) exValidationCfg m).metrics.businessErrorRateAdds =
      m.businessErrorRateAdds ++ [0] ∧
    ∀ d2 : Nat,
      (validateResponse (exErrorRes d2) exValidationCfg m).ok = false ∧
      (validateResponse (exErrorRes d2) exValidationCfg m).metrics.businessErrors =
        m.businessErrors + 1 ∧
      (validateResponse (exErrorRes d2) exValidationCfg m).metrics.businessErrorRateAdds =
        m.businessErrorRateAdds ++ [1] := by
  have h201 : validateResponse (exCreateRes d) exValidationCfg m =
      ⟨decide (d < 5000) && true,
       [("Create_User: status 201", true),
        ("Create_User: response time < 5s", decide (d < 5000)),
        ("Create_User: has response body", true),
        ("Create_User: valid JSON response", true),
        ("Create_User: has field \x27id\x27", true),
        ("Create_User: \x27id\x27 is string", true)],
       ⟨m.businessErrors, m.businessErrorRateAdds ++ [0]⟩, []⟩ := rfl
  have h500 : ∀ d2 : Nat, validateResponse (exErrorRes d2) exValidationCfg m =
      ⟨false,
       [("Create_User: status 201", false),
        ("Create_User: response time < 5s", decide (d2 < 5000)),
        ("Create_User: has response body", true),
        ("Create_User: valid JSON response", true),
        ("Create_User: has field \x27id\x27", true),
        ("Create_User: \x27id\x27 is string", true)],
       ⟨m.businessErrors + 1, m.businessErrorRateAdds ++ [1]⟩, []⟩ := fun d2 => rfl
  refine ⟨?_, ?_, ?_, ?_⟩
  · rw [h201]
    simp [hd]
  · rw [h201]
  · rw [h201]
  · intro d2
    rw [h500 d2]
    exact ⟨rfl, rfl, rfl⟩

/-- Witness for C7 (amended) at duration 100 and fresh metrics. -/
theorem validateResponse_statuses_witness :
    (validateResponse (exCreateRes 100) exValidationCfg {}).ok = true ∧
    (validateResponse (exErrorRes 100) exValidationCfg {}).metrics.businessErrors = 1 := by
  have h := validateResponse_statuses 100 {} (by decide)
  exact ⟨h.1, (h.2.2.2 100).2.1⟩

end K6
